import Mathlib

/-!
Verification of the mint-dialog core of the POAP-APP client.

The embedding follows the single relevant source file (the MintDialog
component): the zod validation schema (schemaCommon, schemaDates, their
intersection), the submit handler onSubmit, the closing handlers
handleClose and handleCancel, and the disabled-state wiring of the
rendered controls.

Modelling conventions:
* JS strings are Lean String; JS string length (UTF-16 code units) is
  modelled by String.length, which agrees on the inputs considered here.
* JS Date values are modelled by their millisecond timestamp as Int;
  a nullable Date is Option Int.
* The numeric tokenCount field is modelled as a rational: the zod
  int() check corresponds to the denominator being 1.
* The platform URL parser invoked by the zod url() check is external to
  the repository; it is modelled by an abstract boolean predicate urlOk
  that the schema definitions take as a parameter.
* zod semantics: string and number checks run in declaration order and
  each failing check appends an issue; the trim() entry in the check
  list replaces the value for subsequent processing and for the parsed
  output; nullable() lets null skip the date min() check; transform()
  runs only on an inner success and a custom addIssue marks the result
  dirty; refine() on an object runs unless the inner parse aborted, and
  nothing aborts for inputs of the statically typed shape; the
  intersection succeeds exactly when both sides produced no issue.
-/

namespace POAP

/-- A zod validation issue: the path names the offending field. -/
structure Issue where
  path : List String
  message : String
deriving DecidableEq, Repr

/-- The typed shape of the mint form record consumed by the schema. -/
structure MintFormValues where
  title : String
  description : String
  location : String
  url : String
  tokenCount : ℚ
  isPublic : Bool
  dateStart : Option Int
  dateEnd : Option Int
deriving DecidableEq, Repr

/-- Millisecond timestamp of 1900-01-01, the zod date minimum. -/
def date1900 : Int := -2208988800000

/-- Issues of the title field: nonempty, then max 256; the trailing
trim affects only the parsed output. -/
def titleIssues (s : String) : List Issue :=
  (if s.length < 1 then [⟨["title"], "Title is required"⟩] else [])
    ++ (if s.length > 256 then
      [⟨["title"], "Title must be less than 256 characters"⟩] else [])

/-- Issues of the description field: nonempty, then max 10000. -/
def descriptionIssues (s : String) : List Issue :=
  (if s.length < 1 then [⟨["description"], "Description is required"⟩] else [])
    ++ (if s.length > 10000 then
      [⟨["description"], "Description must be less than 10000 characters"⟩] else [])

/-- Issues of the location field: nonempty, then max 256; no trim. -/
def locationIssues (s : String) : List Issue :=
  (if s.length < 1 then [⟨["location"], "Location is required"⟩] else [])
    ++ (if s.length > 256 then
      [⟨["location"], "Location must be less than 256 characters"⟩] else [])

/-- Issues of the url field: nonempty, then the platform URL check; the
trailing trim affects only the parsed output. -/
def urlIssues (urlOk : String → Bool) (s : String) : List Issue :=
  (if s.length < 1 then [⟨["url"], "URL is required"⟩] else [])
    ++ (if urlOk s then [] else [⟨["url"], "URL is invalid"⟩])

/-- Issues of the tokenCount field: int(), positive(), max 200, with the
zod default messages for the first two. -/
def tokenCountIssues (q : ℚ) : List Issue :=
  (if q.den = 1 then [] else [⟨["tokenCount"], "Expected integer, received float"⟩])
    ++ (if q ≤ 0 then [⟨["tokenCount"], "Number must be greater than 0"⟩] else [])
    ++ (if q > 200 then
      [⟨["tokenCount"], "Token count must be less than or equal to 200"⟩] else [])

/-- Issues of one nullable date field: a null value yields the custom
required message from the transform; a present value is checked against
the 1900-01-01 minimum. -/
def dateFieldIssues (field requiredMsg : String) (d : Option Int) : List Issue :=
  match d with
  | none => [⟨[field], requiredMsg⟩]
  | some t => if t < date1900 then [⟨[field], "Date is too far back"⟩] else []

/-- Issues of the cross-field refine on schemaDates: the predicate holds
only when both dates are present and dateEnd is at least dateStart;
otherwise the ordering issue is attached to dateEnd. -/
def dateOrderIssues (ds de : Option Int) : List Issue :=
  match ds, de with
  | some s, some e =>
      if e ≥ s then [] else [⟨["dateEnd"], "End Date must be later than Start Date"⟩]
  | _, _ => [⟨["dateEnd"], "End Date must be later than Start Date"⟩]

/-- All issues of schemaCommon, in field-declaration order. -/
def schemaCommonIssues (urlOk : String → Bool) (v : MintFormValues) : List Issue :=
  titleIssues v.title ++ descriptionIssues v.description
    ++ locationIssues v.location ++ urlIssues urlOk v.url
    ++ tokenCountIssues v.tokenCount

/-- All issues of schemaDates: both field parses, then the refine. -/
def schemaDatesIssues (v : MintFormValues) : List Issue :=
  dateFieldIssues "dateStart" "Start Date is required" v.dateStart
    ++ dateFieldIssues "dateEnd" "End Date is required" v.dateEnd
    ++ dateOrderIssues v.dateStart v.dateEnd

/-- All issues of the intersection schema. -/
def schemaIssues (urlOk : String → Bool) (v : MintFormValues) : List Issue :=
  schemaCommonIssues urlOk v ++ schemaDatesIssues v

/-- The schema accepts a record exactly when parsing produced no issue. -/
def schemaAccepts (urlOk : String → Bool) (v : MintFormValues) : Bool :=
  (schemaIssues urlOk v).isEmpty

/-- The parsed output of the schema: the trim entries on title and url
replace those values; every other field passes through unchanged. -/
def schemaOutput (v : MintFormValues) : MintFormValues :=
  { v with title := v.title.trim, url := v.url.trim }

/-- Sample stand-in for the platform URL parser, used only to evaluate
the schema at concrete inputs: accepts strings with an explicit http or
https scheme. -/
def urlOkSimple (s : String) : Bool :=
  s.data.take 7 == "http://".data || s.data.take 8 == "https://".data

/-- A concrete record that satisfies every rule except possibly the
tokenCount bounds, used for boundary evaluations. -/
def sampleRecord (q : ℚ) : MintFormValues :=
  { title := "Company Retreat 2023"
    description := "An afternoon of talks."
    location := "Zurich"
    url := "https://example.com/image.png"
    tokenCount := q
    isPublic := false
    dateStart := some 1680000000000
    dateEnd := some 1680086400000 }

/-- The identifier of the only dialog this component reacts to. -/
inductive DialogIdentifier where
  | DIALOG_MINT
deriving DecidableEq, Repr

/-- The raw form state held by the form library; tokenCount is none
while the number input is unfilled (the undefined default). -/
structure FormState where
  title : String
  description : String
  location : String
  url : String
  tokenCount : Option ℚ
  isPublic : Bool
  dateStart : Option Int
  dateEnd : Option Int
deriving DecidableEq, Repr

/-- The defaultValues record the form is created with and reset to. -/
def defaultValues : FormState :=
  { title := ""
    description := ""
    location := ""
    url := ""
    tokenCount := none
    isPublic := false
    dateStart := none
    dateEnd := none }

/-- The wallet connector context: account and networkId, each possibly
absent (undefined). -/
structure Web3State where
  account : Option String
  networkId : Option Nat
deriving DecidableEq, Repr

/-- The auth context: the authenticated flag and the session token. -/
structure AuthState where
  isAuthenticated : Bool
  jwt : Option String
deriving DecidableEq, Repr

/-- JS truthiness of a possibly absent string: undefined and the empty
string are falsy. -/
def jsTruthyStr : Option String → Bool
  | none => false
  | some s => s != ""

/-- JS truthiness of a possibly absent number: undefined and zero are
falsy. -/
def jsTruthyNat : Option Nat → Bool
  | none => false
  | some n => n != 0

/-- The request body of the create-event call, field for field. -/
structure CreatePayload where
  networkId : Nat
  tokenCount : ℚ
  title : String
  description : String
  location : String
  imageUrl : String
  dateStart : Option Int
  dateEnd : Option Int
  isManaged : Bool
deriving DecidableEq, Repr

/-- How the awaited create-event call settles: a result with an event
identifier, a rejection recognised by the axios error guard (carrying
the optional response payload error field and the error message), or
any other thrown error. -/
inductive ApiOutcome where
  | ok (eventId : Nat)
  | axiosErr (responseError : Option String) (message : String)
  | otherErr (message : String)
deriving DecidableEq, Repr

/-- A toast enqueued on the notification surface. -/
structure Notification where
  message : String
  variant : String
deriving DecidableEq, Repr

/-- The mutable state the submit and close handlers touch: the loading
flag, the form state, and the shared active-dialog atom (none models
the empty object written to close). -/
structure ComponentState where
  loading : Bool
  form : FormState
  activeDialog : Option DialogIdentifier
deriving DecidableEq, Repr

/-- The externally visible effects of one submit invocation. -/
structure SubmitTrace where
  calls : List CreatePayload
  notifications : List Notification
deriving DecidableEq, Repr

/-- The guard of the try block: account, networkId and jwt must all be
truthy. -/
def submitGuard (w3 : Web3State) (auth : AuthState) : Bool :=
  jsTruthyStr w3.account && jsTruthyNat w3.networkId && jsTruthyStr auth.jwt

/-- JS string conversion of a possibly undefined value, as produced by
template interpolation of response?.data.error. -/
def jsUndefOr : Option String → String
  | none => "undefined"
  | some s => s

/-- The onSubmit handler, straight-line: set loading; inside the try,
when the guard holds issue the create call and on success toast and
reset, on a caught error toast the axios or generic message; the
finally clause always clears loading and writes the empty value to the
active-dialog atom. The parsed values and the settled outcome of the
awaited call are explicit arguments. -/
def onSubmit (w3 : Web3State) (auth : AuthState) (values : MintFormValues)
    (api : ApiOutcome) (st : ComponentState) : ComponentState × SubmitTrace :=
  let st1 : ComponentState := { st with loading := true }
  let step :=
    if submitGuard w3 auth then
      let payload : CreatePayload :=
        { networkId := w3.networkId.getD 0
          tokenCount := values.tokenCount
          title := values.title
          description := values.description
          location := values.location
          imageUrl := values.url
          dateStart := values.dateStart
          dateEnd := values.dateEnd
          isManaged := !values.isPublic }
      match api with
      | .ok id =>
          ({ st1 with form := defaultValues }, [payload],
            [⟨"Mint successful: Event #" ++ toString id, "success"⟩])
      | .axiosErr resp _msg =>
          (st1, [payload], [⟨"Mint failed: " ++ jsUndefOr resp, "error"⟩])
      | .otherErr msg =>
          (st1, [payload], [⟨"Mint failed: " ++ msg, "error"⟩])
    else (st1, [], [])
  ({ step.1 with loading := false, activeDialog := none },
    ⟨step.2.1, step.2.2⟩)

/-- The handleClose handler: a backdrop-click reason is ignored, any
other invocation writes the empty value to the active-dialog atom. -/
def handleClose (reason : Option String) (st : ComponentState) : ComponentState :=
  if reason == some "backdropClick" then st
  else { st with activeDialog := none }

/-- The handleCancel handler: reset the form, then close. -/
def handleCancel (st : ComponentState) : ComponentState :=
  { st with form := defaultValues, activeDialog := none }

/-- The user gestures that can dismiss the dialog. -/
inductive DismissSource where
  | escapeKey
  | backdropClick
  | closeButton
deriving DecidableEq, Repr

/-- The dismissal wiring of the rendered Dialog: disableEscapeKeyDown
suppresses the escape key entirely, so handleClose is never invoked for
it; a backdrop click reaches handleClose with the backdropClick reason;
the close icon button invokes handleClose with no reason. -/
def dialogDismiss : DismissSource → ComponentState → ComponentState
  | .escapeKey, st => st
  | .backdropClick, st => handleClose (some "backdropClick") st
  | .closeButton, st => handleClose none st

/-- Whether the dialog is rendered open: the effect mirrors the shared
atom holding this component identifier. -/
def dialogOpen (activeDialog : Option DialogIdentifier) : Bool :=
  activeDialog == some DialogIdentifier.DIALOG_MINT

/-- The disabled expression of the Create button. -/
def createButtonDisabled (loading : Bool) (account : Option String)
    (isValid : Bool) (isAuthenticated : Bool) : Bool :=
  loading || !jsTruthyStr account || !isValid || !isAuthenticated

/-- The disabled flags of every interactive control in the rendered
dialog. -/
structure RenderedControls where
  cancelDisabled : Bool
  closeIconDisabled : Bool
  titleDisabled : Bool
  descriptionDisabled : Bool
  locationDisabled : Bool
  urlDisabled : Bool
  dateStartDisabled : Bool
  dateEndDisabled : Bool
  tokenCountDisabled : Bool
  isPublicDisabled : Bool
  createDisabled : Bool
deriving DecidableEq, Repr

/-- The disabled wiring of the rendered dialog: every field, the Cancel
button and the close icon button are disabled while loading; the Create
button additionally requires a truthy account, a valid record and
authentication. -/
def renderControls (loading : Bool) (account : Option String)
    (isValid isAuthenticated : Bool) : RenderedControls :=
  { cancelDisabled := loading
    closeIconDisabled := loading
    titleDisabled := loading
    descriptionDisabled := loading
    locationDisabled := loading
    urlDisabled := loading
    dateStartDisabled := loading
    dateEndDisabled := loading
    tokenCountDisabled := loading
    isPublicDisabled := loading
    createDisabled := createButtonDisabled loading account isValid isAuthenticated }

/-- Whether the outcome of the awaited call is a thrown error. -/
def ApiOutcome.isError : ApiOutcome → Bool
  | .ok _ => false
  | .axiosErr _ _ => true
  | .otherErr _ => true

/-- Whether needle occurs as a contiguous run inside hay. -/
def occursIn (needle : List Char) : List Char → Bool
  | [] => needle.isEmpty
  | c :: t => ((c :: t).take needle.length == needle) || occursIn needle t

/-- Whether needle occurs as a contiguous substring of hay. -/
def substrOccurs (needle hay : String) : Bool :=
  occursIn needle.data hay.data

/-- A concrete connected wallet context. -/
def sampleWeb3 : Web3State :=
  { account := some "rHb9CJAWyB4rj91VRWn96DkukG4bwdtyTh", networkId := some 21338 }

/-- A concrete wallet context with no connected account. -/
def noAccountWeb3 : Web3State :=
  { account := none, networkId := some 21338 }

/-- A concrete authenticated session. -/
def sampleAuth : AuthState :=
  { isAuthenticated := true, jwt := some "eyJhbGciOiJIUzI1NiJ9.e30.sig" }

/-- A concrete component state with the dialog open and a partly filled
form. -/
def sampleState : ComponentState :=
  { loading := false
    form := { defaultValues with title := "draft title" }
    activeDialog := some DialogIdentifier.DIALOG_MINT }

/-! ## Helper lemmas about the per-field issue lists -/

theorem string_length_eq_zero_iff (s : String) : s.length = 0 ↔ s = "" := by
  cases s with
  | mk data =>
      simp [String.length, List.length_eq_zero, String.ext_iff]

theorem titleIssues_eq_nil_iff (s : String) :
    titleIssues s = [] ↔ s ≠ "" ∧ s.length ≤ 256 := by
  unfold titleIssues
  split <;> split <;>
    simp_all [Nat.lt_one_iff, string_length_eq_zero_iff, Nat.not_lt]

theorem descriptionIssues_eq_nil_iff (s : String) :
    descriptionIssues s = [] ↔ s ≠ "" ∧ s.length ≤ 10000 := by
  unfold descriptionIssues
  split <;> split <;>
    simp_all [Nat.lt_one_iff, string_length_eq_zero_iff, Nat.not_lt]

theorem locationIssues_eq_nil_iff (s : String) :
    locationIssues s = [] ↔ s ≠ "" ∧ s.length ≤ 256 := by
  unfold locationIssues
  split <;> split <;>
    simp_all [Nat.lt_one_iff, string_length_eq_zero_iff, Nat.not_lt]

theorem urlIssues_eq_nil_iff (urlOk : String → Bool) (s : String) :
    urlIssues urlOk s = [] ↔ s ≠ "" ∧ urlOk s = true := by
  unfold urlIssues
  split <;> split <;>
    simp_all [Nat.lt_one_iff, string_length_eq_zero_iff]

theorem tokenCountIssues_eq_nil_iff (q : ℚ) :
    tokenCountIssues q = [] ↔ q.den = 1 ∧ 0 < q ∧ q ≤ 200 := by
  unfold tokenCountIssues
  split <;> split <;> split <;> simp_all [not_le, not_lt]

theorem dateFieldIssues_eq_nil_iff (field msg : String) (d : Option Int) :
    dateFieldIssues field msg d = [] ↔ ∃ t, d = some t ∧ date1900 ≤ t := by
  cases d with
  | none => simp [dateFieldIssues]
  | some t =>
      unfold dateFieldIssues
      split <;> simp_all [not_lt]

theorem dateOrderIssues_eq_nil_iff (ds de : Option Int) :
    dateOrderIssues ds de = [] ↔
      ∃ s e, ds = some s ∧ de = some e ∧ s ≤ e := by
  cases ds with
  | none => simp [dateOrderIssues]
  | some s =>
      cases de with
      | none => simp [dateOrderIssues]
      | some e =>
          unfold dateOrderIssues
          split <;> simp_all [ge_iff_le, not_le]

theorem schemaDatesIssues_eq_nil_iff (v : MintFormValues) :
    schemaDatesIssues v = [] ↔
      ∃ s e, v.dateStart = some s ∧ v.dateEnd = some e ∧
        date1900 ≤ s ∧ date1900 ≤ e ∧ s ≤ e := by
  unfold schemaDatesIssues
  simp only [List.append_eq_nil, dateFieldIssues_eq_nil_iff,
    dateOrderIssues_eq_nil_iff]
  constructor
  · rintro ⟨⟨⟨s, hs, hs19⟩, e, he, he19⟩, s2, e2, hs2, he2, hord⟩
    rw [hs, Option.some_inj] at hs2
    rw [he, Option.some_inj] at he2
    subst hs2
    subst he2
    exact ⟨s, e, hs, he, hs19, he19, hord⟩
  · rintro ⟨s, e, hs, he, hs19, he19, hord⟩
    exact ⟨⟨⟨s, hs, hs19⟩, e, he, he19⟩, s, e, hs, he, hord⟩

theorem schemaAccepts_iff_no_issue (urlOk : String → Bool) (v : MintFormValues) :
    schemaAccepts urlOk v = true ↔ schemaIssues urlOk v = [] := by
  rw [schemaAccepts, List.isEmpty_iff]

theorem schemaAccepts_eq_false_of_mem {urlOk : String → Bool}
    {v : MintFormValues} {i : Issue} (h : i ∈ schemaIssues urlOk v) :
    schemaAccepts urlOk v = false := by
  refine Bool.eq_false_iff.mpr fun hT => ?_
  rw [schemaAccepts_iff_no_issue] at hT
  rw [hT] at h
  exact List.not_mem_nil i h

/-! ## Claim theorems -/

/-- C1: the schema accepts a record exactly when every per-field rule
holds (title, description, location nonempty and within their maxima,
url nonempty and well formed, tokenCount a positive integer of at most
200) and both dates are present, at least 1900-01-01, and dateEnd is at
least dateStart; the tokenCount boundary values 0 and 201 are rejected
while 1 and 200 are accepted. -/
theorem schema_accepts_iff_rules :
    (∀ (urlOk : String → Bool) (v : MintFormValues),
        schemaAccepts urlOk v = true ↔
          v.title ≠ "" ∧ v.title.length ≤ 256 ∧
          v.description ≠ "" ∧ v.description.length ≤ 10000 ∧
          v.location ≠ "" ∧ v.location.length ≤ 256 ∧
          v.url ≠ "" ∧ urlOk v.url = true ∧
          v.tokenCount.den = 1 ∧ 0 < v.tokenCount ∧ v.tokenCount ≤ 200 ∧
          (∃ s e, v.dateStart = some s ∧ v.dateEnd = some e ∧
            date1900 ≤ s ∧ date1900 ≤ e ∧ s ≤ e)) ∧
      schemaAccepts urlOkSimple (sampleRecord 0) = false ∧
      schemaAccepts urlOkSimple (sampleRecord 1) = true ∧
      schemaAccepts urlOkSimple (sampleRecord 200) = true ∧
      schemaAccepts urlOkSimple (sampleRecord 201) = false := by
  refine ⟨?_, by decide, by decide, by decide, by decide⟩
  intro urlOk v
  rw [schemaAccepts_iff_no_issue]
  unfold schemaIssues schemaCommonIssues
  simp only [List.append_eq_nil]
  rw [titleIssues_eq_nil_iff, descriptionIssues_eq_nil_iff,
    locationIssues_eq_nil_iff, urlIssues_eq_nil_iff,
    tokenCountIssues_eq_nil_iff, schemaDatesIssues_eq_nil_iff]
  constructor
  · rintro ⟨⟨⟨⟨⟨⟨ht1, ht2⟩, hd1, hd2⟩, hl1, hl2⟩, hu1, hu2⟩, hq1, hq2, hq3⟩,
      hdates⟩
    exact ⟨ht1, ht2, hd1, hd2, hl1, hl2, hu1, hu2, hq1, hq2, hq3, hdates⟩
  · rintro ⟨ht1, ht2, hd1, hd2, hl1, hl2, hu1, hu2, hq1, hq2, hq3, hdates⟩
    exact ⟨⟨⟨⟨⟨⟨ht1, ht2⟩, hd1, hd2⟩, hl1, hl2⟩, hu1, hu2⟩, hq1, hq2, hq3⟩,
      hdates⟩

/-- C1 witness: the acceptance equivalence evaluated at a concrete
accepted record. -/
theorem schema_accepts_iff_rules_witness :
    (sampleRecord 1).title ≠ "" ∧ 0 < (sampleRecord 1).tokenCount :=
  ⟨((schema_accepts_iff_rules.1 urlOkSimple (sampleRecord 1)).mp
      (by decide)).1,
    ((schema_accepts_iff_rules.1 urlOkSimple (sampleRecord 1)).mp
      (by decide)).2.2.2.2.2.2.2.2.2.1⟩

/-- C5 counterexample: a whitespace-only title, and likewise a
whitespace-only location, pass the emptiness check, so the schema
accepts records the claim says are rejected as empty. -/
theorem schema_whitespace_accepted_cex :
    schemaAccepts urlOkSimple { sampleRecord 5 with title := "   " } = true ∧
      schemaAccepts urlOkSimple { sampleRecord 5 with location := "   " } = true :=
  ⟨by decide, by decide⟩

/-- C5 amended: the trim entries on title and url run after the
emptiness and maximum-length checks and only rewrite the parsed
output; location and description are never trimmed; every emptiness
and length check reads the raw, untrimmed value. -/
theorem schema_trim_semantics :
    (∀ v : MintFormValues,
        (schemaOutput v).title = v.title.trim ∧
        (schemaOutput v).url = v.url.trim ∧
        (schemaOutput v).location = v.location ∧
        (schemaOutput v).description = v.description) ∧
      (∀ s, titleIssues s = [] ↔ s ≠ "" ∧ s.length ≤ 256) ∧
      (∀ s, locationIssues s = [] ↔ s ≠ "" ∧ s.length ≤ 256) ∧
      (∀ (urlOk : String → Bool) (s : String),
        urlIssues urlOk s = [] ↔ s ≠ "" ∧ urlOk s = true) :=
  ⟨fun _ => ⟨rfl, rfl, rfl, rfl⟩, titleIssues_eq_nil_iff,
    locationIssues_eq_nil_iff, urlIssues_eq_nil_iff⟩

/-- C6: an absent date yields exactly the field-specific required
error on that field and makes the schema reject; a present date before
1900-01-01 is rejected; with both dates present acceptance forces
dateEnd at least dateStart, a strictly earlier dateEnd puts the
ordering error on the dateEnd field, and the non-strict comparison
raises no ordering issue when dateStart equals or precedes dateEnd. -/
theorem schema_dates_rules (urlOk : String → Bool) (v : MintFormValues) :
    (v.dateStart = none →
        dateFieldIssues "dateStart" "Start Date is required" v.dateStart
            = [Issue.mk ["dateStart"] "Start Date is required"] ∧
          schemaAccepts urlOk v = false) ∧
      (v.dateEnd = none →
        dateFieldIssues "dateEnd" "End Date is required" v.dateEnd
            = [Issue.mk ["dateEnd"] "End Date is required"] ∧
          schemaAccepts urlOk v = false) ∧
      (∀ t, v.dateStart = some t → t < date1900 →
        schemaAccepts urlOk v = false) ∧
      (∀ t, v.dateEnd = some t → t < date1900 →
        schemaAccepts urlOk v = false) ∧
      (∀ s e, v.dateStart = some s → v.dateEnd = some e →
        schemaAccepts urlOk v = true → s ≤ e) ∧
      (∀ s e, v.dateStart = some s → v.dateEnd = some e → e < s →
        Issue.mk ["dateEnd"] "End Date must be later than Start Date"
          ∈ schemaIssues urlOk v) ∧
      (∀ s e, v.dateStart = some s → v.dateEnd = some e → s ≤ e →
        dateOrderIssues v.dateStart v.dateEnd = []) := by
  refine ⟨?_, ?_, ?_, ?_, ?_, ?_, ?_⟩
  · intro hds
    refine ⟨by rw [hds]; rfl, schemaAccepts_eq_false_of_mem
      (i := Issue.mk ["dateStart"] "Start Date is required") ?_⟩
    simp [schemaIssues, schemaDatesIssues, dateFieldIssues, hds]
  · intro hde
    refine ⟨by rw [hde]; rfl, schemaAccepts_eq_false_of_mem
      (i := Issue.mk ["dateEnd"] "End Date is required") ?_⟩
    simp [schemaIssues, schemaDatesIssues, dateFieldIssues, hde]
  · intro t hds hlt
    refine schemaAccepts_eq_false_of_mem
      (i := Issue.mk ["dateStart"] "Date is too far back") ?_
    simp [schemaIssues, schemaDatesIssues, dateFieldIssues, hds, hlt]
  · intro t hde hlt
    refine schemaAccepts_eq_false_of_mem
      (i := Issue.mk ["dateEnd"] "Date is too far back") ?_
    simp [schemaIssues, schemaDatesIssues, dateFieldIssues, hde, hlt]
  · intro s e hs he hacc
    rw [schemaAccepts_iff_no_issue] at hacc
    unfold schemaIssues at hacc
    rw [List.append_eq_nil] at hacc
    obtain ⟨s2, e2, hs2, he2, -, -, hord⟩ :=
      (schemaDatesIssues_eq_nil_iff v).mp hacc.2
    rw [hs, Option.some_inj] at hs2
    rw [he, Option.some_inj] at he2
    subst hs2
    subst he2
    exact hord
  · intro s e hs he hlt
    have hno : ¬e ≥ s := not_le.mpr hlt
    simp [schemaIssues, schemaDatesIssues, dateOrderIssues, hs, he, hno]
  · intro s e hs he hord
    simp [dateOrderIssues, hs, he, ge_iff_le, hord]

/-- C6 witness: the absent-start-date rule evaluated at a concrete
record. -/
theorem schema_dates_rules_witness :
    dateFieldIssues "dateStart" "Start Date is required"
        ({ sampleRecord 5 with dateStart := none } : MintFormValues).dateStart
          = [Issue.mk ["dateStart"] "Start Date is required"] ∧
      schemaAccepts urlOkSimple { sampleRecord 5 with dateStart := none } = false :=
  (schema_dates_rules urlOkSimple { sampleRecord 5 with dateStart := none }).1 rfl

/-- C2: with a truthy account, network identifier and session token,
a successful submit issues exactly one create-event call carrying the
network identifier, token count, title, description, location, the url
as imageUrl, both dates, and isManaged as the negation of isPublic;
then it enqueues one success toast naming the returned event
identifier, resets the form to defaults, clears the loading flag and
closes the dialog by clearing the shared active-dialog signal. -/
theorem submit_success_effects (w3 : Web3State) (auth : AuthState)
    (values : MintFormValues) (id : Nat) (st : ComponentState) (nid : Nat)
    (hacc : jsTruthyStr w3.account = true)
    (hnet : w3.networkId = some nid) (hnid : nid ≠ 0)
    (hjwt : jsTruthyStr auth.jwt = true) :
    (onSubmit w3 auth values (.ok id) st).2.calls =
        [{ networkId := nid
           tokenCount := values.tokenCount
           title := values.title
           description := values.description
           location := values.location
           imageUrl := values.url
           dateStart := values.dateStart
           dateEnd := values.dateEnd
           isManaged := !values.isPublic }] ∧
      (onSubmit w3 auth values (.ok id) st).2.notifications =
        [Notification.mk ("Mint successful: Event #" ++ toString id) "success"] ∧
      (onSubmit w3 auth values (.ok id) st).1.form = defaultValues ∧
      (onSubmit w3 auth values (.ok id) st).1.loading = false ∧
      (onSubmit w3 auth values (.ok id) st).1.activeDialog = none := by
  have hg : submitGuard w3 auth = true := by
    simp [submitGuard, hacc, hjwt, jsTruthyNat, hnet, bne_iff_ne, hnid]
  simp [onSubmit, hg, hnet]

/-- C2 witness: the success path evaluated on concrete inputs with
event identifier 42. -/
theorem submit_success_effects_witness :
    (onSubmit sampleWeb3 sampleAuth (sampleRecord 5) (.ok 42)
        sampleState).2.notifications =
      [Notification.mk ("Mint successful: Event #" ++ toString 42) "success"] :=
  (submit_success_effects sampleWeb3 sampleAuth (sampleRecord 5) 42
    sampleState 21338 (by decide) rfl (by decide) (by decide)).2.1

/-- C3: when the create-event call fails with any error, one error
toast is enqueued, the form is left untouched, the loading flag is
cleared and the dialog is closed by clearing the shared active-dialog
signal. -/
theorem submit_failure_effects (w3 : Web3State) (auth : AuthState)
    (values : MintFormValues) (api : ApiOutcome) (st : ComponentState)
    (hg : submitGuard w3 auth = true) (herr : api.isError = true) :
    (∃ m, (onSubmit w3 auth values api st).2.notifications
        = [Notification.mk m "error"]) ∧
      (onSubmit w3 auth values api st).1.form = st.form ∧
      (onSubmit w3 auth values api st).1.loading = false ∧
      (onSubmit w3 auth values api st).1.activeDialog = none := by
  cases api <;> simp_all [ApiOutcome.isError, onSubmit]

/-- C3 witness: the failure path evaluated on a concrete server
rejection. -/
theorem submit_failure_effects_witness :
    (∃ m, (onSubmit sampleWeb3 sampleAuth (sampleRecord 5)
        (.axiosErr (some "limit exceeded") "Request failed with status code 400")
        sampleState).2.notifications = [Notification.mk m "error"]) ∧
      (onSubmit sampleWeb3 sampleAuth (sampleRecord 5)
        (.axiosErr (some "limit exceeded") "Request failed with status code 400")
        sampleState).1.form = sampleState.form ∧
      (onSubmit sampleWeb3 sampleAuth (sampleRecord 5)
        (.axiosErr (some "limit exceeded") "Request failed with status code 400")
        sampleState).1.loading = false ∧
      (onSubmit sampleWeb3 sampleAuth (sampleRecord 5)
        (.axiosErr (some "limit exceeded") "Request failed with status code 400")
        sampleState).1.activeDialog = none :=
  submit_failure_effects sampleWeb3 sampleAuth (sampleRecord 5)
    (.axiosErr (some "limit exceeded") "Request failed with status code 400")
    sampleState (by decide) (by decide)

/-- C4 counterexample: an axios failure that carries no response
payload (a transport failure whose underlying message is Network
Error) is reported as the literal text undefined; the notification
does not contain the underlying error message. -/
theorem submit_error_message_cex :
    (onSubmit sampleWeb3 sampleAuth (sampleRecord 5)
        (.axiosErr none "Network Error") sampleState).2.notifications =
      [Notification.mk "Mint failed: undefined" "error"] ∧
      substrOccurs "Network Error" "Mint failed: undefined" = false :=
  ⟨by decide, by decide⟩

/-- C4 amended: the handler distinguishes axios errors from other
thrown errors, not responses from transport failures: for any axios
error the toast carries the response payload error field, rendered as
the text undefined when absent; for any other error it carries that
error message. -/
theorem submit_error_message_kinds (w3 : Web3State) (auth : AuthState)
    (values : MintFormValues) (st : ComponentState)
    (hg : submitGuard w3 auth = true) :
    (∀ resp msg,
        (onSubmit w3 auth values (.axiosErr resp msg) st).2.notifications
          = [Notification.mk ("Mint failed: " ++ jsUndefOr resp) "error"]) ∧
      (∀ msg, (onSubmit w3 auth values (.otherErr msg) st).2.notifications
          = [Notification.mk ("Mint failed: " ++ msg) "error"]) := by
  constructor <;> intros <;> simp [onSubmit, hg]

/-- C4 amended witness: both error kinds evaluated concretely. -/
theorem submit_error_message_kinds_witness :
    (onSubmit sampleWeb3 sampleAuth (sampleRecord 5)
        (.axiosErr (some "limit exceeded") "Bad Request")
        sampleState).2.notifications
      = [Notification.mk ("Mint failed: " ++ jsUndefOr (some "limit exceeded"))
          "error"] :=
  (submit_error_message_kinds sampleWeb3 sampleAuth (sampleRecord 5)
    sampleState (by decide)).1 (some "limit exceeded") "Bad Request"

/-- C8 counterexample: a submit with a valid record but no connected
account is not a no-op: the finally clause clears the shared
active-dialog signal, closing the dialog that was open. -/
theorem submit_precondition_cex :
    (onSubmit noAccountWeb3 sampleAuth (sampleRecord 5) (.ok 1)
        sampleState).1.activeDialog ≠ sampleState.activeDialog ∧
      sampleState.activeDialog = some DialogIdentifier.DIALOG_MINT :=
  ⟨by decide, by decide⟩

/-- C8 amended: when the guard on account, network identifier and
session token fails, no call is issued, no toast is shown and the form
is untouched, and the loading flag ends cleared; but the finally
clause still clears the shared active-dialog signal, closing the
dialog. -/
theorem submit_guard_failed_effects (w3 : Web3State) (auth : AuthState)
    (values : MintFormValues) (api : ApiOutcome) (st : ComponentState)
    (hg : submitGuard w3 auth = false) :
    (onSubmit w3 auth values api st).2.calls = [] ∧
      (onSubmit w3 auth values api st).2.notifications = [] ∧
      (onSubmit w3 auth values api st).1.form = st.form ∧
      (onSubmit w3 auth values api st).1.loading = false ∧
      (onSubmit w3 auth values api st).1.activeDialog = none := by
  simp [onSubmit, hg]

/-- C8 amended witness: the guard-failed path evaluated concretely. -/
theorem submit_guard_failed_effects_witness :
    (onSubmit noAccountWeb3 sampleAuth (sampleRecord 5) (.ok 1)
        sampleState).2.calls = [] ∧
      (onSubmit noAccountWeb3 sampleAuth (sampleRecord 5) (.ok 1)
        sampleState).2.notifications = [] ∧
      (onSubmit noAccountWeb3 sampleAuth (sampleRecord 5) (.ok 1)
        sampleState).1.form = sampleState.form ∧
      (onSubmit noAccountWeb3 sampleAuth (sampleRecord 5) (.ok 1)
        sampleState).1.loading = false ∧
      (onSubmit noAccountWeb3 sampleAuth (sampleRecord 5) (.ok 1)
        sampleState).1.activeDialog = none :=
  submit_guard_failed_effects noAccountWeb3 sampleAuth (sampleRecord 5)
    (.ok 1) sampleState (by decide)

/-- C7: the Create button is disabled exactly when the record fails
validation, or no truthy account is connected, or the user is not
authenticated, or a submission is loading; and on a concretely valid
record each of the four conditions alone disables the otherwise
enabled button. -/
theorem create_button_disabled_iff :
    (∀ (urlOk : String → Bool) (v : MintFormValues) (loading : Bool)
        (account : Option String) (isAuthenticated : Bool),
        createButtonDisabled loading account (schemaAccepts urlOk v)
            isAuthenticated = true ↔
          (schemaAccepts urlOk v = false ∨ jsTruthyStr account = false ∨
            isAuthenticated = false ∨ loading = true)) ∧
      createButtonDisabled false sampleWeb3.account
        (schemaAccepts urlOkSimple (sampleRecord 5)) true = false ∧
      createButtonDisabled true sampleWeb3.account
        (schemaAccepts urlOkSimple (sampleRecord 5)) true = true ∧
      createButtonDisabled false none
        (schemaAccepts urlOkSimple (sampleRecord 5)) true = true ∧
      createButtonDisabled false sampleWeb3.account
        (schemaAccepts urlOkSimple (sampleRecord 0)) true = true ∧
      createButtonDisabled false sampleWeb3.account
        (schemaAccepts urlOkSimple (sampleRecord 5)) false = true := by
  refine ⟨?_, by decide, by decide, by decide, by decide, by decide⟩
  intro urlOk v loading account isAuthenticated
  cases h : schemaAccepts urlOk v <;>
    cases hacc : jsTruthyStr account <;>
      cases loading <;> cases isAuthenticated <;>
        simp [createButtonDisabled, h, hacc]

/-- C9 counterexample: with the dialog open, an escape key press
changes nothing, because the rendered Dialog sets disableEscapeKeyDown
and the close handler is never invoked; the claim that the escape key
closes the dialog fails. -/
theorem dialog_escape_ignored_cex :
    dialogDismiss DismissSource.escapeKey sampleState = sampleState ∧
      dialogOpen sampleState.activeDialog = true :=
  ⟨rfl, rfl⟩

/-- C9 amended: the explicit cancel action resets the form to defaults
and closes the dialog; the close icon button closes it without
resetting the form; a backdrop click is ignored; and the escape key is
suppressed by disableEscapeKeyDown, so it neither closes the dialog
nor changes any state. -/
theorem dialog_close_paths (st : ComponentState) :
    handleCancel st = { st with form := defaultValues, activeDialog := none } ∧
      dialogDismiss DismissSource.closeButton st
        = { st with activeDialog := none } ∧
      dialogDismiss DismissSource.backdropClick st = st ∧
      dialogDismiss DismissSource.escapeKey st = st := by
  refine ⟨rfl, ?_, ?_, rfl⟩
  · simp [dialogDismiss, handleClose]
  · simp [dialogDismiss, handleClose]

/-- C10: whenever a submission is in flight, the Cancel button, the
close icon button and every form field are disabled, as is the Create
button, so no user gesture can reset or close the dialog until the
submission settles. -/
theorem loading_disables_controls (account : Option String)
    (isValid isAuthenticated : Bool) :
    (renderControls true account isValid isAuthenticated).cancelDisabled = true ∧
      (renderControls true account isValid isAuthenticated).closeIconDisabled = true ∧
      (renderControls true account isValid isAuthenticated).titleDisabled = true ∧
      (renderControls true account isValid isAuthenticated).descriptionDisabled = true ∧
      (renderControls true account isValid isAuthenticated).locationDisabled = true ∧
      (renderControls true account isValid isAuthenticated).urlDisabled = true ∧
      (renderControls true account isValid isAuthenticated).dateStartDisabled = true ∧
      (renderControls true account isValid isAuthenticated).dateEndDisabled = true ∧
      (renderControls true account isValid isAuthenticated).tokenCountDisabled = true ∧
      (renderControls true account isValid isAuthenticated).isPublicDisabled = true ∧
      (renderControls true account isValid isAuthenticated).createDisabled = true := by
  simp [renderControls, createButtonDisabled]

end POAP
